import Mathlib

/-!
Shallow embedding of the Skillmentor backend (learning-management REST API):
the enrollment lifecycle engine (src/routes/enrollments.js, src/models/Enrollment.js)
and the review aggregation and moderation engine (reviews routes, admin moderation
route, src/models/Course.js).  ObjectIds are modelled as Nat, dates as Nat
timestamps, the document collections as Lean lists, and each route handler as a
pure function from its inputs and the collection state to a response
(HTTP status, message, updated collection).  Every mongoose save of an
Enrollment runs the pre-save hook of src/models/Enrollment.js.
-/

namespace Skillmentor

/-- Course document (src/models/Course.js).  Only the fields the verified
routes read are carried: identity and the isActive flag; catalog fields such
as title are kept as representative payload. -/
structure Course where
  id : Nat
  title : String
  isActive : Bool
deriving Repr, DecidableEq

/-- Entry of Enrollment.completedModules (src/models/Enrollment.js lines 20-29). -/
structure CompletedModule where
  moduleIndex : Int
  completedAt : Nat
deriving Repr, DecidableEq

/-- Enrollment document (src/models/Enrollment.js). -/
structure Enrollment where
  id : Nat
  student : Nat
  course : Nat
  progress : Int
  completedModules : List CompletedModule
  startDate : Nat
  completionDate : Option Nat
  certificateIssued : Bool
  certificateUrl : Option String
  lastAccessedAt : Nat
  isActive : Bool
deriving Repr, DecidableEq

/-- The pre-save hook of src/models/Enrollment.js lines 81-90: when progress
is 100 and completionDate is unset, set it to now; when progress is below 100,
clear it; always refresh lastAccessedAt. -/
def enrollmentPreSave (now : Nat) (e : Enrollment) : Enrollment :=
  let cd : Option Nat :=
    if e.progress = 100 ∧ e.completionDate = none then some now
    else if e.progress < 100 then none
    else e.completionDate
  { e with completionDate := cd, lastAccessedAt := now }

/-- Document produced by Enrollment.create with only student and course given:
all remaining fields take their schema defaults (src/models/Enrollment.js),
and the pre-save hook runs on create. -/
def Enrollment.createDoc (id student course now : Nat) : Enrollment :=
  { id := id, student := student, course := course, progress := 0,
    completedModules := [], startDate := now, completionDate := none,
    certificateIssued := false, certificateUrl := none,
    lastAccessedAt := now, isActive := true }

/-- Persisting an existing Enrollment document: the pre-save hook runs, then
the document replaces the stored document with the same id. -/
def saveEnrollment (now : Nat) (e : Enrollment) (db : List Enrollment) :
    List Enrollment :=
  let e' := enrollmentPreSave now e
  db.map (fun x => if x.id == e'.id then e' else x)

/-- Errors the persistence collaborator can raise on a write.  The unique
compound index on (student, course) (src/models/Enrollment.js line 61) makes
the store reject a duplicate insert with a duplicate-key error. -/
inductive DbError where
  | duplicateKey
  | other
deriving Repr, DecidableEq

/-- Enrollment.create against the store: the unique (student, course) index
rejects the insert with a duplicate-key error when a document for the pair
already exists; otherwise the new document (schema defaults, pre-save hook)
is appended. -/
def createEnrollment (now freshId student course : Nat)
    (db : List Enrollment) : Except DbError (Enrollment × List Enrollment) :=
  if db.any (fun x => x.student == student && x.course == course) then
    .error .duplicateKey
  else
    let e := enrollmentPreSave now (Enrollment.createDoc freshId student course now)
    .ok (e, db ++ [e])

/-- Course.findById followed by the route existence checks. -/
def findCourse (id : Nat) (courses : List Course) : Option Course :=
  courses.find? (fun c => c.id == id)

/-- Enrollment.findOne on the (student, course) pair
(src/routes/enrollments.js lines 32-35). -/
def findOneEnrollment (student course : Nat) (db : List Enrollment) :
    Option Enrollment :=
  db.find? (fun e => e.student == student && e.course == course)

/-- Enrollment.findById. -/
def findEnrollmentById (id : Nat) (db : List Enrollment) : Option Enrollment :=
  db.find? (fun e => e.id == id)

/-- Response of an enrollment route: HTTP status, message, and the enrollment
collection after the request. -/
structure EnrollResponse where
  status : Nat
  message : String
  enrollments : List Enrollment
deriving Repr, DecidableEq

/-- POST /api/enrollments (src/routes/enrollments.js lines 11-78), with the
two awaits made explicit: dbFind is the collection state the findOne reads,
dbCreate the state the later write runs against (they coincide unless a
concurrent request commits in between). -/
def enrollRace (now freshId userId : Nat) (courseId : Option Nat)
    (courses : List Course) (dbFind dbCreate : List Enrollment) :
    EnrollResponse :=
  match courseId with
  | none => ⟨400, "Course ID is required", dbCreate⟩
  | some cid =>
    match findCourse cid courses with
    | none => ⟨404, "Course not found or inactive", dbCreate⟩
    | some course =>
      if ¬ course.isActive then ⟨404, "Course not found or inactive", dbCreate⟩
      else
        match findOneEnrollment userId cid dbFind with
        | some existingEnrollment =>
          if existingEnrollment.isActive then
            ⟨400, "Already enrolled in this course", dbCreate⟩
          else
            let e := { existingEnrollment with isActive := true, startDate := now }
            ⟨200, "Re-enrolled in course successfully", saveEnrollment now e dbCreate⟩
        | none =>
          match createEnrollment now freshId userId cid dbCreate with
          | .ok (_, db') => ⟨201, "Enrolled in course successfully", db'⟩
          | .error _ => ⟨500, "Server error", dbCreate⟩

/-- POST /api/enrollments in the race-free case: both awaits see the same
collection state. -/
def enroll (now freshId userId : Nat) (courseId : Option Nat)
    (courses : List Course) (db : List Enrollment) : EnrollResponse :=
  enrollRace now freshId userId courseId courses db db

/-- Number of enrollment documents stored for a (student, course) pair. -/
def pairCount (s c : Nat) (db : List Enrollment) : Nat :=
  db.countP (fun e => e.student == s && e.course == c)

/-- Appending a module completion inside PUT /:id/progress
(src/routes/enrollments.js lines 206-218): pushed only when no entry with the
same moduleIndex is already present. -/
def addCompletedModule (now : Nat) (midx : Option Int) (e : Enrollment) :
    Enrollment :=
  match midx with
  | none => e
  | some m =>
    match e.completedModules.find? (fun cm => cm.moduleIndex == m) with
    | some _ => e
    | none =>
      { e with completedModules :=
          e.completedModules ++ [{ moduleIndex := m, completedAt := now }] }

/-- PUT /api/enrollments/:id/progress (src/routes/enrollments.js lines
174-237): range check first, then findById, then ownership, then the progress
and completed-module mutation followed by save. -/
def updateProgress (now userId eid : Nat) (progress : Option Int)
    (midx : Option Int) (db : List Enrollment) : EnrollResponse :=
  match progress with
  | none => ⟨400, "Progress must be between 0 and 100", db⟩
  | some p =>
    if p < 0 ∨ p > 100 then ⟨400, "Progress must be between 0 and 100", db⟩
    else
      match findEnrollmentById eid db with
      | none => ⟨404, "Enrollment not found", db⟩
      | some enrollment =>
        if ¬ enrollment.student == userId then ⟨403, "Access denied", db⟩
        else
          let e1 := { enrollment with progress := p, lastAccessedAt := now }
          let e2 := addCompletedModule now midx e1
          ⟨200, "Progress updated successfully", saveEnrollment now e2 db⟩

/-- DELETE /api/enrollments/:id (src/routes/enrollments.js lines 242-276):
soft delete by clearing isActive and saving. -/
def unenroll (now userId eid : Nat) (db : List Enrollment) : EnrollResponse :=
  match findEnrollmentById eid db with
  | none => ⟨404, "Enrollment not found", db⟩
  | some enrollment =>
    if ¬ enrollment.student == userId then ⟨403, "Access denied", db⟩
    else
      ⟨200, "Unenrolled from course successfully",
        saveEnrollment now { enrollment with isActive := false } db⟩

/-- Whitespace predicate of the JavaScript String.prototype.trim. -/
def isJsSpace (c : Char) : Bool :=
  c == ' ' || c == '\t' || c == '\n' || c == '\r' || c == '\x0b' || c == '\x0c'

/-- JavaScript String.prototype.trim: strip leading and trailing
whitespace. -/
def trimString (s : String) : String :=
  ⟨((s.data.dropWhile isJsSpace).reverse.dropWhile isJsSpace).reverse⟩

/-- Entry of Review.reportedBy.  The user and reason fields are written by the
report route; the reportedAt default is modelled from the spec (models/Review.js
is not under src/): ReportReview "appends \x7buser: reporter, reason,
reportedAt: now\x7d". -/
structure Report where
  user : Nat
  reason : String
  reportedAt : Nat
deriving Repr, DecidableEq

/-- Review document.  Field set as used by the review routes and
src/models/Course.js. -/
structure Review where
  id : Nat
  student : Nat
  course : Nat
  rating : Int
  comment : String
  isApproved : Bool
  helpfulVotes : Int
  reportedBy : List Report
deriving Repr, DecidableEq

/-- Modelled from the spec: models/Review.js is not under src/ (only its
callers are), so the schema defaults applied by Review.create come from the
spec, which says CreateReview "creates with isApproved=true, helpfulVotes=0,
reportedBy=[]". -/
def Review.createDoc (id student course : Nat) (rating : Int)
    (comment : String) : Review :=
  { id := id, student := student, course := course, rating := rating,
    comment := comment, isApproved := true, helpfulVotes := 0,
    reportedBy := [] }

/-- Review.findById. -/
def findReviewById (id : Nat) (reviews : List Review) : Option Review :=
  reviews.find? (fun r => r.id == id)

/-- Persisting an existing Review document: it replaces the stored document
with the same id (no pre-save hook is specified for reviews). -/
def saveReview (r : Review) (reviews : List Review) : List Review :=
  reviews.map (fun x => if x.id == r.id then r else x)

/-- Response of a review route: HTTP status, message, and the review
collection after the request. -/
structure ReviewResponse where
  status : Nat
  message : String
  reviews : List Review
deriving Repr, DecidableEq

/-- POST /api/reviews: course existence and activity check, active-enrollment
check, duplicate-review check, then creation with schema defaults. -/
def createReview (freshId userId courseId : Nat) (rating : Int)
    (comment : String) (courses : List Course) (enrollments : List Enrollment)
    (reviews : List Review) : ReviewResponse :=
  match findCourse courseId courses with
  | none => ⟨404, "Course not found", reviews⟩
  | some course =>
    if ¬ course.isActive then ⟨404, "Course not found", reviews⟩
    else
      match enrollments.find?
          (fun e => e.student == userId && e.course == courseId && e.isActive) with
      | none => ⟨400, "You must be enrolled in this course to leave a review", reviews⟩
      | some _ =>
        match reviews.find? (fun r => r.student == userId && r.course == courseId) with
        | some _ => ⟨400, "You have already reviewed this course", reviews⟩
        | none =>
          ⟨201, "Review created successfully",
            reviews ++ [Review.createDoc freshId userId courseId rating comment]⟩

/-- PUT /api/admin/reviews/:id/moderate (admin routes, moderation handler):
action must be approve or reject; approve sets isApproved and clears
reportedBy, reject only clears isApproved. -/
def moderateReview (action : String) (reviewId : Nat)
    (reviews : List Review) : ReviewResponse :=
  if ¬ (action = "approve" ∨ action = "reject") then
    ⟨400, "Action must be either approve or reject", reviews⟩
  else
    match findReviewById reviewId reviews with
    | none => ⟨404, "Review not found", reviews⟩
    | some review =>
      let r' :=
        if action = "approve" then
          { review with isApproved := true, reportedBy := [] }
        else
          { review with isApproved := false }
      ⟨200, "Review " ++ action ++ "d successfully", saveReview r' reviews⟩

/-- POST /api/reviews/:id/report: reason required and non-blank after trim,
review must exist, reporter must not already appear in reportedBy, then one
report entry with the trimmed reason is appended. -/
def reportReview (now userId reviewId : Nat) (reason : Option String)
    (reviews : List Review) : ReviewResponse :=
  match reason with
  | none => ⟨400, "Report reason is required", reviews⟩
  | some s =>
    if (trimString s).length = 0 then ⟨400, "Report reason is required", reviews⟩
    else
      match findReviewById reviewId reviews with
      | none => ⟨404, "Review not found", reviews⟩
      | some review =>
        match review.reportedBy.find? (fun rep => rep.user == userId) with
        | some _ => ⟨400, "You have already reported this review", reviews⟩
        | none =>
          let r' := { review with reportedBy :=
            review.reportedBy ++
              [{ user := userId, reason := trimString s, reportedAt := now }] }
          ⟨200, "Review reported successfully", saveReview r' reviews⟩

/-- Instance method calculateAverageRating of src/models/Course.js lines
102-124: aggregate over reviews matching the course with isApproved true,
average their ratings, round to one decimal (Math.round of ten times the
average, divided by ten); with no matching review return zero stats. -/
def calculateAverageRating (courseId : Nat) (reviews : List Review) :
    ℚ × Nat :=
  let stats := reviews.filter (fun r => r.course == courseId && r.isApproved)
  if stats.length > 0 then
    (((round (((stats.map (fun r => (r.rating : ℚ))).sum / stats.length) * 10) : ℤ) : ℚ) / 10,
      stats.length)
  else (0, 0)

/-! ### Helper lemmas -/

theorem enrollmentPreSave_progress (now : Nat) (e : Enrollment) :
    (enrollmentPreSave now e).progress = e.progress := rfl

theorem enrollmentPreSave_id (now : Nat) (e : Enrollment) :
    (enrollmentPreSave now e).id = e.id := rfl

theorem enrollmentPreSave_student (now : Nat) (e : Enrollment) :
    (enrollmentPreSave now e).student = e.student := rfl

theorem enrollmentPreSave_course (now : Nat) (e : Enrollment) :
    (enrollmentPreSave now e).course = e.course := rfl

theorem enrollmentPreSave_completedModules (now : Nat) (e : Enrollment) :
    (enrollmentPreSave now e).completedModules = e.completedModules := rfl

theorem enrollmentPreSave_isActive (now : Nat) (e : Enrollment) :
    (enrollmentPreSave now e).isActive = e.isActive := rfl

theorem enrollmentPreSave_startDate (now : Nat) (e : Enrollment) :
    (enrollmentPreSave now e).startDate = e.startDate := rfl

theorem mem_saveEnrollment (now : Nat) (e : Enrollment) (db : List Enrollment)
    (x : Enrollment) (hx : x ∈ saveEnrollment now e db) :
    x ∈ db ∨ x = enrollmentPreSave now e := by
  unfold saveEnrollment at hx
  rcases List.mem_map.mp hx with ⟨y, hy, hxy⟩
  by_cases hid : (y.id == (enrollmentPreSave now e).id) = true
  · right
    rw [← hxy]
    simp [hid]
  · left
    rw [← hxy]
    simpa [hid] using hy

/-! ### C1 -/

/-- C1: after any save of an enrollment whose progress does not exceed 100
(creation, progress update, unenroll, reactivation all save through the
pre-save hook, and the schema caps progress at 100), completionDate is
non-null exactly when progress is 100; a save with progress below 100 clears
completionDate, a save with progress 100 leaves it non-null; every document a
save puts into the collection is either an untouched old document or the
hook-processed saved one. -/
theorem completionDate_iff_progress_100 (now : Nat) (e : Enrollment)
    (h : e.progress ≤ 100) :
    ((enrollmentPreSave now e).completionDate ≠ none ↔
      (enrollmentPreSave now e).progress = 100) ∧
    (enrollmentPreSave now e).progress = e.progress ∧
    (e.progress < 100 → (enrollmentPreSave now e).completionDate = none) ∧
    (e.progress = 100 → (enrollmentPreSave now e).completionDate ≠ none) ∧
    (∀ db x, x ∈ saveEnrollment now e db → x ∈ db ∨ x = enrollmentPreSave now e) := by
  refine ⟨?_, rfl, ?_, ?_, fun db x hx => mem_saveEnrollment now e db x hx⟩
  · rw [enrollmentPreSave_progress]
    unfold enrollmentPreSave
    rcases lt_or_eq_of_le h with hlt | heq
    · simp only [show ¬(e.progress = 100 ∧ e.completionDate = none) from
        fun hc => absurd hc.1 (ne_of_lt hlt), if_neg, hlt, if_pos]
      simp [ne_of_lt hlt, hlt]
    · rcases hcd : e.completionDate with _ | d
      · simp [heq, hcd]
      · simp [heq, hcd]
  · intro hlt
    unfold enrollmentPreSave
    simp only [show ¬(e.progress = 100 ∧ e.completionDate = none) from
      fun hc => absurd hc.1 (ne_of_lt hlt)]
    simp [hlt, ne_of_lt hlt]
  · intro heq
    unfold enrollmentPreSave
    rcases hcd : e.completionDate with _ | d
    · simp [heq, hcd]
    · simp [heq, hcd]

/-- Witness for C1 at a concrete enrollment with progress 100. -/
theorem completionDate_iff_progress_100_witness :
    (Enrollment.mk 1 2 3 100 [] 0 none false none 0 true).progress ≤ 100 ∧
    ((enrollmentPreSave 5 (Enrollment.mk 1 2 3 100 [] 0 none false none 0 true)).completionDate ≠ none ↔
      (enrollmentPreSave 5 (Enrollment.mk 1 2 3 100 [] 0 none false none 0 true)).progress = 100) :=
  ⟨by decide,
    (completionDate_iff_progress_100 5
      (Enrollment.mk 1 2 3 100 [] 0 none false none 0 true) (by decide)).1⟩

theorem findEnrollmentById_save (now : Nat) (e : Enrollment)
    (db : List Enrollment) (y : Enrollment)
    (h : findEnrollmentById e.id db = some y) :
    findEnrollmentById e.id (saveEnrollment now e db) =
      some (enrollmentPreSave now e) := by
  unfold findEnrollmentById saveEnrollment at *
  induction db with
  | nil => simp at h
  | cons z zs ih =>
    by_cases hz : (z.id == e.id) = true
    · have hz' : (z.id == (enrollmentPreSave now e).id) = true := by
        rw [enrollmentPreSave_id]; exact hz
      simp only [List.map_cons, if_pos hz']
      exact List.find?_cons_of_pos _ (by simp [enrollmentPreSave_id])
    · have hz' : (z.id == (enrollmentPreSave now e).id) = false := by
        rw [enrollmentPreSave_id]; exact Bool.eq_false_iff.mpr hz
      simp only [List.map_cons, hz', if_neg, Bool.false_eq_true, not_false_eq_true]
      rw [List.find?_cons_of_neg _ (by simp [hz])]
      apply ih
      rwa [List.find?_cons_of_neg _ (by simp [hz])] at h

theorem addCompletedModule_id (now : Nat) (midx : Option Int) (e : Enrollment) :
    (addCompletedModule now midx e).id = e.id := by
  unfold addCompletedModule
  rcases midx with _ | m
  · rfl
  · rcases h : e.completedModules.find? (fun cm => cm.moduleIndex == m) with _ | cm <;> simp [h]

theorem addCompletedModule_student (now : Nat) (midx : Option Int) (e : Enrollment) :
    (addCompletedModule now midx e).student = e.student := by
  unfold addCompletedModule
  rcases midx with _ | m
  · rfl
  · rcases h : e.completedModules.find? (fun cm => cm.moduleIndex == m) with _ | cm <;> simp [h]

theorem addCompletedModule_isActive (now : Nat) (midx : Option Int) (e : Enrollment) :
    (addCompletedModule now midx e).isActive = e.isActive := by
  unfold addCompletedModule
  rcases midx with _ | m
  · rfl
  · rcases h : e.completedModules.find? (fun cm => cm.moduleIndex == m) with _ | cm <;> simp [h]

/-! ### C3 -/

/-- C3: a progress update with a missing progress value or one outside 0..100
is rejected with status 400 before any lookup or mutation, and the enrollment
collection is returned unchanged. -/
theorem updateProgress_range_rejected (now userId eid : Nat)
    (progress : Option Int) (midx : Option Int) (db : List Enrollment)
    (h : progress = none ∨ ∃ p, progress = some p ∧ (p < 0 ∨ p > 100)) :
    updateProgress now userId eid progress midx db =
      ⟨400, "Progress must be between 0 and 100", db⟩ := by
  rcases h with h | ⟨p, hp, hrange⟩
  · subst h; rfl
  · subst hp
    simp only [updateProgress]
    rw [if_pos hrange]

/-- Witness for C3 at progress -1 and at progress 101. -/
theorem updateProgress_range_rejected_witness :
    ((some (-1) : Option Int) = none ∨
      ∃ p, (some (-1) : Option Int) = some p ∧ (p < 0 ∨ p > 100)) ∧
    updateProgress 9 2 1 (some (-1)) none
        [Enrollment.mk 1 2 3 50 [] 0 none false none 0 true] =
      ⟨400, "Progress must be between 0 and 100",
        [Enrollment.mk 1 2 3 50 [] 0 none false none 0 true]⟩ ∧
    updateProgress 9 2 1 (some 101) none
        [Enrollment.mk 1 2 3 50 [] 0 none false none 0 true] =
      ⟨400, "Progress must be between 0 and 100",
        [Enrollment.mk 1 2 3 50 [] 0 none false none 0 true]⟩ :=
  ⟨Or.inr ⟨-1, rfl, Or.inl (by decide)⟩,
    updateProgress_range_rejected 9 2 1 (some (-1)) none _
      (Or.inr ⟨-1, rfl, Or.inl (by decide)⟩),
    updateProgress_range_rejected 9 2 1 (some 101) none _
      (Or.inr ⟨101, rfl, Or.inr (by decide)⟩)⟩

theorem updateProgress_success (now userId eid : Nat) (p : Int)
    (midx : Option Int) (db : List Enrollment) (e : Enrollment)
    (hfind : findEnrollmentById eid db = some e)
    (hown : e.student = userId)
    (h0 : 0 ≤ p) (h1 : p ≤ 100) :
    updateProgress now userId eid (some p) midx db =
      ⟨200, "Progress updated successfully",
        saveEnrollment now (addCompletedModule now midx
          { e with progress := p, lastAccessedAt := now }) db⟩ := by
  have hr : ¬(p < 0 ∨ p > 100) := by omega
  simp only [updateProgress, hfind]
  rw [if_neg hr, if_neg (by simp [hown])]

theorem addCompletedModule_setActive (now : Nat) (midx : Option Int)
    (e : Enrollment) (b : Bool) :
    addCompletedModule now midx { e with isActive := b } =
      { addCompletedModule now midx e with isActive := b } := by
  obtain ⟨i, st, co, pr, cms, sd, cd, ci, cu, la, ia⟩ := e
  unfold addCompletedModule
  rcases midx with _ | m
  · rfl
  · rcases h : cms.find? (fun cm => cm.moduleIndex == m) with _ | cm <;> simp [h]

theorem enrollmentPreSave_setActive (now : Nat) (e : Enrollment) (b : Bool) :
    enrollmentPreSave now { e with isActive := b } =
      { enrollmentPreSave now e with isActive := b } := by
  obtain ⟨i, st, co, pr, cms, sd, cd, ci, cu, la, ia⟩ := e
  rfl

/-! ### C10 -/

/-- C10: a progress update never checks isActive: on a soft-deleted
enrollment (isActive false) a request by the owning student with an in-range
progress succeeds with status 200, the stored document becomes exactly the
hook-processed result of the progress, module and lastAccessedAt mutation
(still inactive), and that mutation acts on an active enrollment identically
on every field except isActive. -/
theorem updateProgress_inactive_succeeds (now userId eid : Nat) (p : Int)
    (midx : Option Int) (db : List Enrollment) (e : Enrollment)
    (hfind : findEnrollmentById eid db = some e)
    (hinact : e.isActive = false)
    (hown : e.student = userId)
    (h0 : 0 ≤ p) (h1 : p ≤ 100) :
    (updateProgress now userId eid (some p) midx db).status = 200 ∧
    (updateProgress now userId eid (some p) midx db).message =
      "Progress updated successfully" ∧
    findEnrollmentById eid
        (updateProgress now userId eid (some p) midx db).enrollments =
      some (enrollmentPreSave now (addCompletedModule now midx
        { e with progress := p, lastAccessedAt := now })) ∧
    (enrollmentPreSave now (addCompletedModule now midx
      { e with progress := p, lastAccessedAt := now })).isActive = false ∧
    enrollmentPreSave now (addCompletedModule now midx
        { e with progress := p, lastAccessedAt := now, isActive := true }) =
      { enrollmentPreSave now (addCompletedModule now midx
          { e with progress := p, lastAccessedAt := now }) with isActive := true } := by
  have hupd := updateProgress_success now userId eid p midx db e hfind hown h0 h1
  have heid : e.id = eid := by
    have := List.find?_some hfind
    simpa using this
  have he2id : (addCompletedModule now midx
      { e with progress := p, lastAccessedAt := now }).id = eid := by
    rw [addCompletedModule_id]; exact heid
  refine ⟨by rw [hupd], by rw [hupd], ?_, ?_, ?_⟩
  · rw [hupd]
    show findEnrollmentById eid (saveEnrollment now _ db) = _
    rw [← he2id]
    exact findEnrollmentById_save now _ db e (by rw [he2id, hfind])
  · rw [enrollmentPreSave_isActive, addCompletedModule_isActive]
    exact hinact
  · have hc := addCompletedModule_setActive now midx
      { e with progress := p, lastAccessedAt := now } true
    calc enrollmentPreSave now (addCompletedModule now midx
          { e with progress := p, lastAccessedAt := now, isActive := true })
        = enrollmentPreSave now ({ addCompletedModule now midx
            { e with progress := p, lastAccessedAt := now } with isActive := true }) := by
          rw [← hc]
      _ = { enrollmentPreSave now (addCompletedModule now midx
            { e with progress := p, lastAccessedAt := now }) with isActive := true } :=
          enrollmentPreSave_setActive now _ true

/-- Witness for C10 on a concrete inactive enrollment. -/
theorem updateProgress_inactive_succeeds_witness :
    findEnrollmentById 1 [Enrollment.mk 1 2 3 10 [] 0 none false none 0 false] =
      some (Enrollment.mk 1 2 3 10 [] 0 none false none 0 false) ∧
    (updateProgress 7 2 1 (some 40) none
      [Enrollment.mk 1 2 3 10 [] 0 none false none 0 false]).status = 200 :=
  ⟨by decide,
    (updateProgress_inactive_succeeds 7 2 1 40 none
      [Enrollment.mk 1 2 3 10 [] 0 none false none 0 false]
      (Enrollment.mk 1 2 3 10 [] 0 none false none 0 false)
      (by decide) rfl rfl (by decide) (by decide)).1⟩

/-- Number of entries with a given moduleIndex in a completedModules list. -/
def countModule (m : Int) (l : List CompletedModule) : Nat :=
  l.countP (fun cm => cm.moduleIndex == m)

theorem find?_append_none {α} (p : α → Bool) (l1 l2 : List α)
    (h : l1.find? p = none) : (l1 ++ l2).find? p = l2.find? p := by
  induction l1 with
  | nil => rfl
  | cons a l ih =>
    rw [List.find?_eq_none] at h
    have hpa : p a = false := by
      have := h a (List.mem_cons_self a l)
      simpa using this
    rw [List.cons_append, List.find?_cons_of_neg _ (by simp [hpa])]
    exact ih (List.find?_eq_none.mpr fun x hx => h x (List.mem_cons_of_mem a hx))

theorem addCompletedModule_not_present (now : Nat) (m : Int) (e : Enrollment)
    (h : e.completedModules.find? (fun cm => cm.moduleIndex == m) = none) :
    addCompletedModule now (some m) e =
      { e with completedModules :=
          e.completedModules ++ [{ moduleIndex := m, completedAt := now }] } := by
  simp only [addCompletedModule, h]

theorem addCompletedModule_present (now : Nat) (m : Int) (e : Enrollment)
    (cm : CompletedModule)
    (h : e.completedModules.find? (fun cm => cm.moduleIndex == m) = some cm) :
    addCompletedModule now (some m) e = e := by
  simp only [addCompletedModule, h]

theorem updateProgress_step (now userId eid : Nat) (p m : Int)
    (db : List Enrollment) (e : Enrollment)
    (hfind : findEnrollmentById eid db = some e)
    (hown : e.student = userId) (h0 : 0 ≤ p) (h1 : p ≤ 100) :
    ∃ e', findEnrollmentById eid
        (updateProgress now userId eid (some p) (some m) db).enrollments = some e' ∧
      e'.student = e.student ∧ e'.id = e.id ∧
      e'.completedModules =
        (match e.completedModules.find? (fun cm => cm.moduleIndex == m) with
          | some _ => e.completedModules
          | none => e.completedModules ++ [{ moduleIndex := m, completedAt := now }]) := by
  have heid : e.id = eid := by simpa using List.find?_some hfind
  have hupd := updateProgress_success now userId eid p (some m) db e hfind hown h0 h1
  refine ⟨enrollmentPreSave now (addCompletedModule now (some m)
    { e with progress := p, lastAccessedAt := now }), ?_, ?_, ?_, ?_⟩
  · rw [hupd]
    show findEnrollmentById eid (saveEnrollment now _ db) = _
    have hid : (addCompletedModule now (some m)
        { e with progress := p, lastAccessedAt := now }).id = eid := by
      rw [addCompletedModule_id]; exact heid
    rw [← hid]
    exact findEnrollmentById_save now _ db e (by rw [hid, hfind])
  · rw [enrollmentPreSave_student, addCompletedModule_student]
  · rw [enrollmentPreSave_id, addCompletedModule_id]
  · rw [enrollmentPreSave_completedModules]
    rcases hc : e.completedModules.find? (fun cm => cm.moduleIndex == m) with _ | cm
    · rw [addCompletedModule_not_present now m
        { e with progress := p, lastAccessedAt := now } hc, hc]
    · rw [addCompletedModule_present now m
        { e with progress := p, lastAccessedAt := now } cm hc, hc]

/-! ### C4 -/

/-- C4: submitting the same completedModuleIndex in two successive progress
updates yields exactly one completedModules entry with that index, carrying
the completedAt recorded by the first call; the second submission is a silent
no-op for the set. -/
theorem updateProgress_module_idempotent (now1 now2 userId eid : Nat)
    (p1 p2 m : Int) (db : List Enrollment) (e : Enrollment)
    (hfind : findEnrollmentById eid db = some e)
    (hown : e.student = userId)
    (hp1a : 0 ≤ p1) (hp1b : p1 ≤ 100) (hp2a : 0 ≤ p2) (hp2b : p2 ≤ 100)
    (hm : countModule m e.completedModules = 0) :
    ∃ e2, findEnrollmentById eid
        (updateProgress now2 userId eid (some p2) (some m)
          (updateProgress now1 userId eid (some p1) (some m) db).enrollments).enrollments =
        some e2 ∧
      countModule m e2.completedModules = 1 ∧
      e2.completedModules.find? (fun cm => cm.moduleIndex == m) =
        some { moduleIndex := m, completedAt := now1 } := by
  have hfe0 : e.completedModules.find? (fun cm => cm.moduleIndex == m) = none := by
    rw [List.find?_eq_none]
    intro x hx
    have := List.countP_eq_zero.mp hm x hx
    simpa using this
  obtain ⟨e1, hf1, hs1, _, hm1⟩ :=
    updateProgress_step now1 userId eid p1 m db e hfind hown hp1a hp1b
  rw [hfe0] at hm1
  obtain ⟨e2, hf2, _, _, hm2⟩ :=
    updateProgress_step now2 userId eid p2 m _ e1 hf1 (hs1.trans hown) hp2a hp2b
  have hfind1 : e1.completedModules.find? (fun cm => cm.moduleIndex == m) =
      some { moduleIndex := m, completedAt := now1 } := by
    rw [hm1, find?_append_none _ _ _ hfe0]
    exact List.find?_cons_of_pos _ (by simp)
  rw [hfind1] at hm2
  refine ⟨e2, hf2, ?_, ?_⟩
  · rw [hm2, hm1]
    unfold countModule at hm ⊢
    rw [List.countP_append, hm]
    simp [List.countP_cons]
  · rw [hm2, hfind1]

/-- Witness for C4 on a concrete enrollment with no completed modules. -/
theorem updateProgress_module_idempotent_witness :
    findEnrollmentById 1 [Enrollment.mk 1 2 3 0 [] 0 none false none 0 true] =
      some (Enrollment.mk 1 2 3 0 [] 0 none false none 0 true) ∧
    ∃ e2, findEnrollmentById 1
        (updateProgress 8 2 1 (some 20) (some 4)
          (updateProgress 7 2 1 (some 10) (some 4)
            [Enrollment.mk 1 2 3 0 [] 0 none false none 0 true]).enrollments).enrollments =
        some e2 ∧
      countModule 4 e2.completedModules = 1 ∧
      e2.completedModules.find? (fun cm => cm.moduleIndex == 4) =
        some { moduleIndex := 4, completedAt := 7 } :=
  ⟨by decide,
    updateProgress_module_idempotent 7 8 2 1 10 20 4
      [Enrollment.mk 1 2 3 0 [] 0 none false none 0 true]
      (Enrollment.mk 1 2 3 0 [] 0 none false none 0 true)
      (by decide) rfl (by decide) (by decide) (by decide) (by decide) (by decide)⟩

theorem enroll_found_active (now freshId userId cid : Nat)
    (courses : List Course) (db : List Enrollment) (course : Course)
    (ex : Enrollment)
    (hc : findCourse cid courses = some course) (hact : course.isActive = true)
    (hfind : findOneEnrollment userId cid db = some ex)
    (hex : ex.isActive = true) :
    enroll now freshId userId (some cid) courses db =
      ⟨400, "Already enrolled in this course", db⟩ := by
  simp only [enroll, enrollRace, hc, hfind]
  rw [if_neg (by simp [hact]), if_pos hex]

theorem enroll_found_inactive (now freshId userId cid : Nat)
    (courses : List Course) (db : List Enrollment) (course : Course)
    (ex : Enrollment)
    (hc : findCourse cid courses = some course) (hact : course.isActive = true)
    (hfind : findOneEnrollment userId cid db = some ex)
    (hex : ex.isActive = false) :
    enroll now freshId userId (some cid) courses db =
      ⟨200, "Re-enrolled in course successfully",
        saveEnrollment now { ex with isActive := true, startDate := now } db⟩ := by
  simp only [enroll, enrollRace, hc, hfind]
  rw [if_neg (by simp [hact]), if_neg (by simp [hex])]

theorem enroll_not_found (now freshId userId cid : Nat)
    (courses : List Course) (db : List Enrollment) (course : Course)
    (hc : findCourse cid courses = some course) (hact : course.isActive = true)
    (hfind : findOneEnrollment userId cid db = none) :
    enroll now freshId userId (some cid) courses db =
      ⟨201, "Enrolled in course successfully",
        db ++ [enrollmentPreSave now (Enrollment.createDoc freshId userId cid now)]⟩ := by
  have hany : db.any (fun x => x.student == userId && x.course == cid) = false := by
    rw [List.any_eq_false]
    intro x hx
    have := List.find?_eq_none.mp hfind x hx
    simpa using this
  simp only [enroll, enrollRace, hc, hfind, createEnrollment]
  rw [if_neg (by simp [hact]), if_neg (by simp [hany])]

theorem pairCount_save (now : Nat) (e : Enrollment) (db : List Enrollment)
    (s c : Nat)
    (h : ∀ y ∈ db, y.id = e.id → y.student = e.student ∧ y.course = e.course) :
    pairCount s c (saveEnrollment now e db) = pairCount s c db := by
  unfold pairCount saveEnrollment
  induction db with
  | nil => rfl
  | cons z zs ih =>
    rw [List.map_cons, List.countP_cons, List.countP_cons,
      ih (fun y hy hid => h y (List.mem_cons_of_mem z hy) hid)]
    congr 1
    by_cases hz : (z.id == (enrollmentPreSave now e).id) = true
    · rw [if_pos hz]
      obtain ⟨h1, h2⟩ := h z (List.mem_cons_self z zs)
        (by simpa [enrollmentPreSave_id] using hz)
      simp only [enrollmentPreSave_student, enrollmentPreSave_course, ← h1, ← h2]
    · rw [if_neg hz]

/-! ### C2 -/

/-- C2: Enroll on an active course is a three-way split on the stored
enrollment for the (student, course) pair: an active enrollment gives status
400 with the collection unchanged; an inactive one is reactivated in place
(isActive true, startDate reset to now, progress and completedModules
preserved, same document id) with a distinct re-enrollment message; no
enrollment gives a fresh document with progress 0 and isActive true; and the
at-most-one-document-per-pair property is preserved. -/
theorem enroll_three_way (now freshId userId cid : Nat)
    (courses : List Course) (db : List Enrollment) (course : Course)
    (hc : findCourse cid courses = some course) (hact : course.isActive = true)
    (hids : (db.map (fun e => e.id)).Nodup) :
    (∀ ex, findOneEnrollment userId cid db = some ex → ex.isActive = true →
      enroll now freshId userId (some cid) courses db =
        ⟨400, "Already enrolled in this course", db⟩) ∧
    (∀ ex, findOneEnrollment userId cid db = some ex → ex.isActive = false →
      (enroll now freshId userId (some cid) courses db).status = 200 ∧
      (enroll now freshId userId (some cid) courses db).message =
        "Re-enrolled in course successfully" ∧
      findEnrollmentById ex.id
          (enroll now freshId userId (some cid) courses db).enrollments =
        some (enrollmentPreSave now { ex with isActive := true, startDate := now }) ∧
      (enrollmentPreSave now
        { ex with isActive := true, startDate := now }).isActive = true ∧
      (enrollmentPreSave now
        { ex with isActive := true, startDate := now }).startDate = now ∧
      (enrollmentPreSave now
        { ex with isActive := true, startDate := now }).progress = ex.progress ∧
      (enrollmentPreSave now
        { ex with isActive := true, startDate := now }).completedModules =
          ex.completedModules ∧
      (enrollmentPreSave now
        { ex with isActive := true, startDate := now }).id = ex.id) ∧
    (findOneEnrollment userId cid db = none →
      enroll now freshId userId (some cid) courses db =
        ⟨201, "Enrolled in course successfully",
          db ++ [enrollmentPreSave now (Enrollment.createDoc freshId userId cid now)]⟩ ∧
      (enrollmentPreSave now (Enrollment.createDoc freshId userId cid now)).progress = 0 ∧
      (enrollmentPreSave now (Enrollment.createDoc freshId userId cid now)).isActive = true) ∧
    (∀ s c, pairCount s c db ≤ 1 →
      pairCount s c (enroll now freshId userId (some cid) courses db).enrollments ≤ 1) := by
  refine ⟨fun ex hfind hex => enroll_found_active now freshId userId cid
      courses db course ex hc hact hfind hex, ?_, ?_, ?_⟩
  · intro ex hfind hex
    have hr := enroll_found_inactive now freshId userId cid courses db course
      ex hc hact hfind hex
    have hexid : ({ ex with isActive := true, startDate := now } : Enrollment).id = ex.id := rfl
    have hmem : ex ∈ db := List.mem_of_find?_eq_some hfind
    have hfid : ∃ y, findEnrollmentById ex.id db = some y := by
      rcases hy : findEnrollmentById ex.id db with _ | y
      · exfalso
        have := List.find?_eq_none.mp hy ex hmem
        simp at this
      · exact ⟨y, rfl⟩
    obtain ⟨y, hy⟩ := hfid
    refine ⟨by rw [hr], by rw [hr], ?_, rfl, rfl, rfl, rfl, rfl⟩
    rw [hr]
    show findEnrollmentById ex.id (saveEnrollment now _ db) = _
    rw [← hexid]
    exact findEnrollmentById_save now _ db y (by rw [hexid, hy])
  · intro hfind
    exact ⟨enroll_not_found now freshId userId cid courses db course hc hact hfind,
      rfl, rfl⟩
  · intro s c hle
    rcases hfo : findOneEnrollment userId cid db with _ | ex
    · rw [enroll_not_found now freshId userId cid courses db course hc hact hfo]
      show pairCount s c (db ++ [enrollmentPreSave now
        (Enrollment.createDoc freshId userId cid now)]) ≤ 1
      unfold pairCount at *
      rw [List.countP_append]
      by_cases hp : ((enrollmentPreSave now
          (Enrollment.createDoc freshId userId cid now)).student == s &&
          (enrollmentPreSave now
            (Enrollment.createDoc freshId userId cid now)).course == c) = true
      · have hs : userId = s := by
          have := (Bool.and_eq_true _ _).mp hp
          simpa using this.1
        have hcc : cid = c := by
          have := (Bool.and_eq_true _ _).mp hp
          simpa using this.2
        have hz : db.countP (fun e => e.student == s && e.course == c) = 0 := by
          rw [List.countP_eq_zero]
          intro x hx
          have := List.find?_eq_none.mp hfo x hx
          rw [← hs, ← hcc]
          simpa using this
        rw [hz]
        simp [List.countP_cons, hp]
      · have h1 : List.countP (fun e => e.student == s && e.course == c)
            [enrollmentPreSave now (Enrollment.createDoc freshId userId cid now)] = 0 := by
          simp only [List.countP_cons, List.countP_nil]
          rw [if_neg (by simpa using hp)]
        omega
    · rcases hexa : ex.isActive with _ | _
      · rw [enroll_found_inactive now freshId userId cid courses db course ex
          hc hact hfo hexa]
        show pairCount s c (saveEnrollment now _ db) ≤ 1
        rw [pairCount_save]
        · exact hle
        · intro y hy hid
          have hmem : ex ∈ db := List.mem_of_find?_eq_some hfo
          have : y = ex := List.inj_on_of_nodup_map hids hy hmem hid
          rw [this]
          exact ⟨rfl, rfl⟩
      · rw [enroll_found_active now freshId userId cid courses db course ex
          hc hact hfo hexa]
        exact hle

/-- Witness for C2: a fresh enrollment is created when none exists. -/
theorem enroll_three_way_witness :
    findCourse 3 [Course.mk 3 "Algebra" true] = some (Course.mk 3 "Algebra" true) ∧
    (Course.mk 3 "Algebra" true).isActive = true ∧
    (enroll 5 1 2 (some 3) [Course.mk 3 "Algebra" true] [] =
      ⟨201, "Enrolled in course successfully",
        [enrollmentPreSave 5 (Enrollment.createDoc 1 2 3 5)]⟩ ∧
      (enrollmentPreSave 5 (Enrollment.createDoc 1 2 3 5)).progress = 0 ∧
      (enrollmentPreSave 5 (Enrollment.createDoc 1 2 3 5)).isActive = true) :=
  ⟨by decide, rfl,
    (enroll_three_way 5 1 2 3 [Course.mk 3 "Algebra" true] []
      (Course.mk 3 "Algebra" true) (by decide) rfl (by decide)).2.2.1 (by decide)⟩

theorem createReview_course_missing (freshId userId cid : Nat) (rating : Int)
    (comment : String) (courses : List Course) (enrollments : List Enrollment)
    (reviews : List Review) (hc : findCourse cid courses = none) :
    createReview freshId userId cid rating comment courses enrollments reviews =
      ⟨404, "Course not found", reviews⟩ := by
  simp only [createReview, hc]

theorem createReview_course_inactive (freshId userId cid : Nat) (rating : Int)
    (comment : String) (courses : List Course) (enrollments : List Enrollment)
    (reviews : List Review) (course : Course)
    (hc : findCourse cid courses = some course)
    (hact : course.isActive = false) :
    createReview freshId userId cid rating comment courses enrollments reviews =
      ⟨404, "Course not found", reviews⟩ := by
  simp only [createReview, hc]
  rw [if_pos (by simp [hact])]

theorem createReview_not_enrolled (freshId userId cid : Nat) (rating : Int)
    (comment : String) (courses : List Course) (enrollments : List Enrollment)
    (reviews : List Review) (course : Course)
    (hc : findCourse cid courses = some course) (hact : course.isActive = true)
    (hen : enrollments.find?
      (fun e => e.student == userId && e.course == cid && e.isActive) = none) :
    createReview freshId userId cid rating comment courses enrollments reviews =
      ⟨400, "You must be enrolled in this course to leave a review", reviews⟩ := by
  simp only [createReview, hc, hen]
  rw [if_neg (by simp [hact])]

theorem createReview_duplicate (freshId userId cid : Nat) (rating : Int)
    (comment : String) (courses : List Course) (enrollments : List Enrollment)
    (reviews : List Review) (course : Course) (en : Enrollment) (r0 : Review)
    (hc : findCourse cid courses = some course) (hact : course.isActive = true)
    (hen : enrollments.find?
      (fun e => e.student == userId && e.course == cid && e.isActive) = some en)
    (hrev : reviews.find?
      (fun r => r.student == userId && r.course == cid) = some r0) :
    createReview freshId userId cid rating comment courses enrollments reviews =
      ⟨400, "You have already reviewed this course", reviews⟩ := by
  simp only [createReview, hc, hen, hrev]
  rw [if_neg (by simp [hact])]

theorem createReview_ok (freshId userId cid : Nat) (rating : Int)
    (comment : String) (courses : List Course) (enrollments : List Enrollment)
    (reviews : List Review) (course : Course) (en : Enrollment)
    (hc : findCourse cid courses = some course) (hact : course.isActive = true)
    (hen : enrollments.find?
      (fun e => e.student == userId && e.course == cid && e.isActive) = some en)
    (hrev : reviews.find?
      (fun r => r.student == userId && r.course == cid) = none) :
    createReview freshId userId cid rating comment courses enrollments reviews =
      ⟨201, "Review created successfully",
        reviews ++ [Review.createDoc freshId userId cid rating comment]⟩ := by
  simp only [createReview, hc, hen, hrev]
  rw [if_neg (by simp [hact])]

/-! ### C5 -/

/-- C5: CreateReview succeeds, with status 201, exactly when the course
exists and is active, the student has an active enrollment in it, and no
review by that student for it exists; each failure case returns its specific
error with the review collection unchanged; on success the created review has
isApproved true, helpfulVotes 0 and empty reportedBy. -/
theorem createReview_eligibility (freshId userId cid : Nat) (rating : Int)
    (comment : String) (courses : List Course) (enrollments : List Enrollment)
    (reviews : List Review) :
    ((findCourse cid courses = none ∨
        ∃ course, findCourse cid courses = some course ∧ course.isActive = false) →
      createReview freshId userId cid rating comment courses enrollments reviews =
        ⟨404, "Course not found", reviews⟩) ∧
    (∀ course, findCourse cid courses = some course → course.isActive = true →
      enrollments.find?
          (fun e => e.student == userId && e.course == cid && e.isActive) = none →
      createReview freshId userId cid rating comment courses enrollments reviews =
        ⟨400, "You must be enrolled in this course to leave a review", reviews⟩) ∧
    (∀ course en r0, findCourse cid courses = some course → course.isActive = true →
      enrollments.find?
          (fun e => e.student == userId && e.course == cid && e.isActive) = some en →
      reviews.find? (fun r => r.student == userId && r.course == cid) = some r0 →
      createReview freshId userId cid rating comment courses enrollments reviews =
        ⟨400, "You have already reviewed this course", reviews⟩) ∧
    (∀ course en, findCourse cid courses = some course → course.isActive = true →
      enrollments.find?
          (fun e => e.student == userId && e.course == cid && e.isActive) = some en →
      reviews.find? (fun r => r.student == userId && r.course == cid) = none →
      createReview freshId userId cid rating comment courses enrollments reviews =
        ⟨201, "Review created successfully",
          reviews ++ [Review.createDoc freshId userId cid rating comment]⟩ ∧
      (Review.createDoc freshId userId cid rating comment).isApproved = true ∧
      (Review.createDoc freshId userId cid rating comment).helpfulVotes = 0 ∧
      (Review.createDoc freshId userId cid rating comment).reportedBy = []) ∧
    ((createReview freshId userId cid rating comment courses enrollments reviews).status = 201 ↔
      ((∃ course, findCourse cid courses = some course ∧ course.isActive = true) ∧
        (∃ en, enrollments.find?
          (fun e => e.student == userId && e.course == cid && e.isActive) = some en) ∧
        reviews.find? (fun r => r.student == userId && r.course == cid) = none)) := by
  refine ⟨?_, ?_, ?_, ?_, ?_⟩
  · rintro (hc | ⟨course, hc, hact⟩)
    · exact createReview_course_missing freshId userId cid rating comment
        courses enrollments reviews hc
    · exact createReview_course_inactive freshId userId cid rating comment
        courses enrollments reviews course hc hact
  · intro course hc hact hen
    exact createReview_not_enrolled freshId userId cid rating comment
      courses enrollments reviews course hc hact hen
  · intro course en r0 hc hact hen hrev
    exact createReview_duplicate freshId userId cid rating comment
      courses enrollments reviews course en r0 hc hact hen hrev
  · intro course en hc hact hen hrev
    exact ⟨createReview_ok freshId userId cid rating comment
      courses enrollments reviews course en hc hact hen hrev, rfl, rfl, rfl⟩
  · constructor
    · intro h201
      rcases hc : findCourse cid courses with _ | course
      · rw [createReview_course_missing freshId userId cid rating comment
          courses enrollments reviews hc] at h201
        simp at h201
      · rcases hact : course.isActive with _ | _
        · rw [createReview_course_inactive freshId userId cid rating comment
            courses enrollments reviews course hc hact] at h201
          simp at h201
        · rcases hen : enrollments.find?
              (fun e => e.student == userId && e.course == cid && e.isActive) with _ | en
          · rw [createReview_not_enrolled freshId userId cid rating comment
              courses enrollments reviews course hc hact hen] at h201
            simp at h201
          · rcases hrev : reviews.find?
                (fun r => r.student == userId && r.course == cid) with _ | r0
            · refine ⟨⟨course, ?_, ?_⟩, ⟨en, ?_⟩, ?_⟩ <;> simp [hc, hact, hen, hrev]
            · rw [createReview_duplicate freshId userId cid rating comment
                courses enrollments reviews course en r0 hc hact hen hrev] at h201
              simp at h201
    · rintro ⟨⟨course, hc, hact⟩, ⟨en, hen⟩, hrev⟩
      rw [createReview_ok freshId userId cid rating comment
        courses enrollments reviews course en hc hact hen hrev]

/-- Witness for C5: all three preconditions hold on concrete data and the
creation succeeds with the default moderation fields. -/
theorem createReview_eligibility_witness :
    findCourse 3 [Course.mk 3 "Algebra" true] = some (Course.mk 3 "Algebra" true) ∧
    createReview 9 2 3 5 "great" [Course.mk 3 "Algebra" true]
        [Enrollment.mk 1 2 3 50 [] 0 none false none 0 true] [] =
      ⟨201, "Review created successfully", [Review.createDoc 9 2 3 5 "great"]⟩ ∧
    (Review.createDoc 9 2 3 5 "great").isApproved = true ∧
    (Review.createDoc 9 2 3 5 "great").helpfulVotes = 0 ∧
    (Review.createDoc 9 2 3 5 "great").reportedBy = [] :=
  ⟨by decide,
    (createReview_eligibility 9 2 3 5 "great" [Course.mk 3 "Algebra" true]
      [Enrollment.mk 1 2 3 50 [] 0 none false none 0 true] []).2.2.2.1
      (Course.mk 3 "Algebra" true)
      (Enrollment.mk 1 2 3 50 [] 0 none false none 0 true)
      (by decide) rfl (by decide) (by decide)⟩

/-! ### C6 -/

/-- C6: calculateAverageRating aggregates only the approved reviews of the
given course: reviews that are unapproved or belong to another course do not
affect the result; with no approved review for the course it returns (0, 0);
on a non-empty approved set it returns the arithmetic mean of the ratings
rounded to one decimal place together with the count; approved ratings
5, 3, 4 give (4.0, 3). -/
theorem calculateAverageRating_spec (cid : Nat) :
    (∀ reviews : List Review,
      (∀ r ∈ reviews, ¬(r.course = cid ∧ r.isApproved = true)) →
      calculateAverageRating cid reviews = (0, 0)) ∧
    (∀ (reviews : List Review) (r : Review),
      ¬(r.course = cid ∧ r.isApproved = true) →
      calculateAverageRating cid (r :: reviews) =
        calculateAverageRating cid reviews) ∧
    (∀ reviews : List Review,
      reviews.filter (fun r => r.course == cid && r.isApproved) ≠ [] →
      calculateAverageRating cid reviews =
        (((round ((((reviews.filter (fun r => r.course == cid && r.isApproved)).map
              (fun r => (r.rating : ℚ))).sum /
            (reviews.filter (fun r => r.course == cid && r.isApproved)).length) * 10) : ℤ) : ℚ) / 10,
          (reviews.filter (fun r => r.course == cid && r.isApproved)).length)) ∧
    calculateAverageRating cid
        [Review.mk 1 1 cid 5 "" true 0 [], Review.mk 2 2 cid 3 "" true 0 [],
          Review.mk 3 3 cid 4 "" true 0 []] = (4, 3) := by
  refine ⟨?_, ?_, ?_, ?_⟩
  · intro reviews h
    have hnil : reviews.filter (fun r => r.course == cid && r.isApproved) = [] := by
      rw [List.filter_eq_nil_iff]
      intro r hr
      have := h r hr
      simpa using this
    unfold calculateAverageRating
    rw [hnil]
    simp
  · intro reviews r h
    have hp : ((fun r => r.course == cid && r.isApproved) r) = false := by
      simpa using h
    unfold calculateAverageRating
    rw [List.filter_cons_of_neg (by simp [hp])]
  · intro reviews hne
    unfold calculateAverageRating
    rw [if_pos (by simpa [List.length_pos] using hne)]
  · show calculateAverageRating cid
      [Review.mk 1 1 cid 5 "" true 0 [], Review.mk 2 2 cid 3 "" true 0 [],
        Review.mk 3 3 cid 4 "" true 0 []] = (4, 3)
    unfold calculateAverageRating
    norm_num [List.filter, round]

/-- Witness for C6: the empty review list has no approved review of course 3
and yields (0, 0). -/
theorem calculateAverageRating_spec_witness :
    calculateAverageRating 3 ([] : List Review) = (0, 0) ∧
    calculateAverageRating 3
        [Review.mk 1 1 3 5 "" true 0 [], Review.mk 2 2 3 3 "" true 0 [],
          Review.mk 3 3 3 4 "" true 0 []] = (4, 3) :=
  ⟨(calculateAverageRating_spec 3).1 [] (by intro r hr; cases hr),
    (calculateAverageRating_spec 3).2.2.2⟩

theorem findReviewById_save (r : Review) (reviews : List Review) (y : Review)
    (h : findReviewById r.id reviews = some y) :
    findReviewById r.id (saveReview r reviews) = some r := by
  unfold findReviewById saveReview at *
  induction reviews with
  | nil => simp at h
  | cons z zs ih =>
    by_cases hz : (z.id == r.id) = true
    · simp only [List.map_cons, if_pos hz]
      exact List.find?_cons_of_pos _ (by simp)
    · have hz' : (z.id == r.id) = false := Bool.eq_false_iff.mpr hz
      simp only [List.map_cons, hz', Bool.false_eq_true, not_false_eq_true, if_neg]
      rw [List.find?_cons_of_neg _ (by simp [hz'])]
      apply ih
      rwa [List.find?_cons_of_neg _ (by simp [hz'])] at h

theorem moderate_approve (rid : Nat) (reviews : List Review) (review : Review)
    (hfind : findReviewById rid reviews = some review) :
    moderateReview "approve" rid reviews =
      ⟨200, "Review approved successfully",
        saveReview { review with isApproved := true, reportedBy := [] } reviews⟩ := by
  simp only [moderateReview, hfind]
  rw [if_neg (by simp)]
  rfl

theorem moderate_reject (rid : Nat) (reviews : List Review) (review : Review)
    (hfind : findReviewById rid reviews = some review) :
    moderateReview "reject" rid reviews =
      ⟨200, "Review rejectd successfully",
        saveReview { review with isApproved := false } reviews⟩ := by
  simp only [moderateReview, hfind]
  rw [if_neg (by simp)]
  rfl

/-! ### C7 -/

/-- C7: moderation of an existing review with action approve sets isApproved
and empties reportedBy; with action reject it clears isApproved and leaves
reportedBy exactly as it was; any other action is rejected with status 400
and the collection unchanged (the action check runs before the lookup). -/
theorem moderate_cases (rid : Nat) (reviews : List Review) (review : Review)
    (hfind : findReviewById rid reviews = some review) :
    ((moderateReview "approve" rid reviews).status = 200 ∧
      findReviewById rid (moderateReview "approve" rid reviews).reviews =
        some { review with isApproved := true, reportedBy := [] }) ∧
    ((moderateReview "reject" rid reviews).status = 200 ∧
      findReviewById rid (moderateReview "reject" rid reviews).reviews =
        some { review with isApproved := false } ∧
      ({ review with isApproved := false } : Review).reportedBy =
        review.reportedBy) ∧
    (∀ a, a ≠ "approve" → a ≠ "reject" →
      moderateReview a rid reviews =
        ⟨400, "Action must be either approve or reject", reviews⟩) := by
  have hid : review.id = rid := by simpa using List.find?_some hfind
  refine ⟨⟨?_, ?_⟩, ⟨?_, ?_, rfl⟩, ?_⟩
  · rw [moderate_approve rid reviews review hfind]
  · rw [moderate_approve rid reviews review hfind]
    show findReviewById rid (saveReview _ reviews) = _
    have h2 : ({ review with isApproved := true, reportedBy := [] } : Review).id = rid := hid
    rw [← h2]
    exact findReviewById_save _ reviews review (by rw [h2]; exact hfind)
  · rw [moderate_reject rid reviews review hfind]
  · rw [moderate_reject rid reviews review hfind]
    show findReviewById rid (saveReview _ reviews) = _
    have h2 : ({ review with isApproved := false } : Review).id = rid := hid
    rw [← h2]
    exact findReviewById_save _ reviews review (by rw [h2]; exact hfind)
  · intro a ha hr
    unfold moderateReview
    rw [if_pos (by simp [ha, hr])]

/-- Witness for C7 on a concrete reported review. -/
theorem moderate_cases_witness :
    findReviewById 1 [Review.mk 1 2 3 4 "ok" true 0 [Report.mk 7 "spam" 1]] =
      some (Review.mk 1 2 3 4 "ok" true 0 [Report.mk 7 "spam" 1]) ∧
    findReviewById 1 (moderateReview "approve" 1
        [Review.mk 1 2 3 4 "ok" true 0 [Report.mk 7 "spam" 1]]).reviews =
      some (Review.mk 1 2 3 4 "ok" true 0 []) :=
  ⟨by decide,
    (moderate_cases 1 [Review.mk 1 2 3 4 "ok" true 0 [Report.mk 7 "spam" 1]]
      (Review.mk 1 2 3 4 "ok" true 0 [Report.mk 7 "spam" 1]) (by decide)).1.2⟩

theorem reportReview_ok (now uid rid : Nat) (s : String)
    (reviews : List Review) (review : Review)
    (hs : ¬(trimString s).length = 0)
    (hfind : findReviewById rid reviews = some review)
    (hrep : review.reportedBy.find? (fun rp => rp.user == uid) = none) :
    reportReview now uid rid (some s) reviews =
      ⟨200, "Review reported successfully",
        saveReview { review with reportedBy := review.reportedBy ++
          [{ user := uid, reason := trimString s, reportedAt := now }] } reviews⟩ := by
  simp only [reportReview, hfind, hrep]
  rw [if_neg hs]

theorem reportReview_already (now uid rid : Nat) (s : String)
    (reviews : List Review) (review : Review) (rep : Report)
    (hs : ¬(trimString s).length = 0)
    (hfind : findReviewById rid reviews = some review)
    (hrep : review.reportedBy.find? (fun rp => rp.user == uid) = some rep) :
    reportReview now uid rid (some s) reviews =
      ⟨400, "You have already reported this review", reviews⟩ := by
  simp only [reportReview, hfind, hrep]
  rw [if_neg hs]

/-! ### C8 -/

/-- C8: reporting an existing review fails with 400 and no change when the
reason is missing or blank after trimming, fails with 400 and no change when
the reporter already appears in reportedBy, and otherwise appends exactly one
entry carrying the reporter and the trimmed reason; the property that
reportedBy holds at most one entry per user is preserved, and a second report
by the same user then always fails, leaving the collection unchanged. -/
theorem reportReview_cases (now uid rid : Nat) (reviews : List Review)
    (review : Review) (hfind : findReviewById rid reviews = some review) :
    (reportReview now uid rid none reviews =
      ⟨400, "Report reason is required", reviews⟩) ∧
    (∀ s, (trimString s).length = 0 →
      reportReview now uid rid (some s) reviews =
        ⟨400, "Report reason is required", reviews⟩) ∧
    (∀ s rep, ¬(trimString s).length = 0 →
      review.reportedBy.find? (fun rp => rp.user == uid) = some rep →
      reportReview now uid rid (some s) reviews =
        ⟨400, "You have already reported this review", reviews⟩) ∧
    (∀ s, ¬(trimString s).length = 0 →
      review.reportedBy.find? (fun rp => rp.user == uid) = none →
      (reportReview now uid rid (some s) reviews).status = 200 ∧
      findReviewById rid (reportReview now uid rid (some s) reviews).reviews =
        some { review with reportedBy := review.reportedBy ++
          [{ user := uid, reason := trimString s, reportedAt := now }] } ∧
      (∀ u, review.reportedBy.countP (fun rp => rp.user == u) ≤ 1 →
        (review.reportedBy ++ [Report.mk uid (trimString s) now]).countP
            (fun rp => rp.user == u) ≤ 1) ∧
      (∀ (s2 : String) (now2 : Nat), ¬(trimString s2).length = 0 →
        reportReview now2 uid rid (some s2)
            (reportReview now uid rid (some s) reviews).reviews =
          ⟨400, "You have already reported this review",
            (reportReview now uid rid (some s) reviews).reviews⟩)) := by
  have hid : review.id = rid := by simpa using List.find?_some hfind
  refine ⟨rfl, ?_, ?_, ?_⟩
  · intro s hs
    simp only [reportReview]
    rw [if_pos hs]
  · intro s rep hs hrep
    exact reportReview_already now uid rid s reviews review rep hs hfind hrep
  · intro s hs hrep
    have hok := reportReview_ok now uid rid s reviews review hs hfind hrep
    have hfind2 : findReviewById rid
        (reportReview now uid rid (some s) reviews).reviews =
        some { review with reportedBy := review.reportedBy ++
          [{ user := uid, reason := trimString s, reportedAt := now }] } := by
      rw [hok]
      show findReviewById rid (saveReview _ reviews) = _
      have hid2 : ({ review with reportedBy := review.reportedBy ++
        [{ user := uid, reason := trimString s, reportedAt := now }] } : Review).id = rid := hid
      rw [← hid2]
      exact findReviewById_save _ reviews review (by rw [hid2]; exact hfind)
    have hrep2 : ({ review with reportedBy := review.reportedBy ++
        [{ user := uid, reason := trimString s, reportedAt := now }] } : Review).reportedBy.find?
        (fun rp => rp.user == uid) = some (Report.mk uid (trimString s) now) := by
      show (review.reportedBy ++ [Report.mk uid (trimString s) now]).find? _ = _
      rw [find?_append_none _ _ _ hrep]
      exact List.find?_cons_of_pos _ (by simp)
    refine ⟨by rw [hok], hfind2, ?_, ?_⟩
    · intro u hu
      rw [List.countP_append]
      by_cases huid : (uid == u) = true
      · have hz : review.reportedBy.countP (fun rp => rp.user == u) = 0 := by
          rw [List.countP_eq_zero]
          intro rp hrp
          have h3 := List.find?_eq_none.mp hrep rp hrp
          have huu : uid = u := by simpa using huid
          rw [← huu]
          simpa using h3
        rw [hz]
        simp [List.countP_cons, huid]
      · have h1 : List.countP (fun rp => rp.user == u)
            [Report.mk uid (trimString s) now] = 0 := by
          simp only [List.countP_cons, List.countP_nil]
          rw [if_neg (by simpa using huid)]
        rw [h1]
        omega
    · intro s2 now2 hs2
      exact reportReview_already now2 uid rid s2 _ _
        (Report.mk uid (trimString s) now) hs2 hfind2 hrep2

/-- Witness for C8: a fresh report by user 7 with a padded reason is appended
with the reason trimmed. -/
theorem reportReview_cases_witness :
    findReviewById 1 [Review.mk 1 2 3 4 "ok" true 0 []] =
      some (Review.mk 1 2 3 4 "ok" true 0 []) ∧
    (reportReview 6 7 1 (some " spam ") [Review.mk 1 2 3 4 "ok" true 0 []]).status = 200 ∧
    findReviewById 1
        (reportReview 6 7 1 (some " spam ") [Review.mk 1 2 3 4 "ok" true 0 []]).reviews =
      some (Review.mk 1 2 3 4 "ok" true 0 [Report.mk 7 "spam" 6]) :=
  ⟨by decide,
    ((reportReview_cases 6 7 1 [Review.mk 1 2 3 4 "ok" true 0 []]
      (Review.mk 1 2 3 4 "ok" true 0 []) (by decide)).2.2.2 " spam "
      (by decide) (by decide)).1,
    ((reportReview_cases 6 7 1 [Review.mk 1 2 3 4 "ok" true 0 []]
      (Review.mk 1 2 3 4 "ok" true 0 []) (by decide)).2.2.2 " spam "
      (by decide) (by decide)).2.1⟩
/-! ### C9 -/

/-- C9: a concrete lost duplicate-enrollment race: the findOne of the
handler sees no enrollment for student 2 in course 3, a concurrent request
then commits one, and the create is rejected by the unique (student, course)
index with a duplicate-key error; the catch-all of the handler answers
status 500 "Server error" instead of translating the store rejection into
the Conflict outcome the spec requires. -/
theorem enroll_race_duplicate_key_500 :
    createEnrollment 5 9 2 3 [Enrollment.mk 1 2 3 0 [] 5 none false none 5 true] =
      .error .duplicateKey ∧
    enrollRace 5 9 2 (some 3) [Course.mk 3 "Algebra" true] []
        [Enrollment.mk 1 2 3 0 [] 5 none false none 5 true] =
      ⟨500, "Server error", [Enrollment.mk 1 2 3 0 [] 5 none false none 5 true]⟩ :=
  ⟨rfl, rfl⟩

end Skillmentor
